import Mathlib

/-!
Shallow embedding of the operation-encoding core of `stellar-base-rs`:
the `ChangeTrustOperation` variant (builder with a validated optional
limit and an XDR mapping using `0` as the absence sentinel) and the
payload-less `InflationOperation` variant, from
`src/operations/change_trust.rs` and `src/operations/inflation.rs`.

Value types that live outside those two files (`MuxedAccount`, `Asset`,
`Stroops`, the XDR leaf types and the external asset codec) are modelled
from the spec, each marked `Modelled from the spec:` in its doc comment.
-/

namespace StellarBase

/-- Modelled from the spec: `AccountAddress`/`MuxedAccount` is an opaque
validated identity leaf type; only equality matters here. -/
structure MuxedAccount where
  id : Nat
deriving DecidableEq

/-- Modelled from the spec: `Asset` is an opaque validated value type
representing an asset; only equality and its external codec matter here. -/
structure Asset where
  id : Nat
deriving DecidableEq

/-- The error type (`crate::error::Error`), restricted to the variants the
two source files use: `InvalidOperation(String)` for builder validation
failures, `InvalidStroopsAmount` for failed amount conversions, plus a
codec-failure variant for the external asset codec. -/
inductive Error where
  | InvalidOperation (msg : String)
  | InvalidStroopsAmount
  | XdrAssetCodecError
deriving DecidableEq

/-- `crate::error::Result<T> = Result<T, Error>`. -/
inductive Result (α : Type) where
  | ok (value : α)
  | error (e : Error)
deriving DecidableEq

/-- Modelled from the spec: `Stroops` wraps a signed 64-bit amount;
`Stroops::new` wraps without validation. The value is carried as an
unbounded integer; 64-bit range enters only through conversions. -/
structure Stroops where
  value : Int
deriving DecidableEq

def Stroops.new (n : Int) : Stroops := ⟨n⟩

def Stroops.to_i64 (s : Stroops) : Int := s.value

def Stroops.max : Stroops := ⟨9223372036854775807⟩

/-- Modelled from the spec: the wire `Int64` leaf type, a signed 64-bit
integer with a `value` accessor and `Int64::new`. -/
structure Int64 where
  value : Int
deriving DecidableEq

def Int64.new (n : Int) : Int64 := ⟨n⟩

/-- Modelled from the spec: `Stroops::to_xdr_int64` converts a stroops
amount (already a signed 64-bit integer) to the wire `Int64` exactly. -/
def Stroops.to_xdr_int64 (s : Stroops) : Result Int64 := .ok (Int64.new s.value)

/-- Modelled from the spec: the wire form of an `Asset` as produced by the
external primitive codec; `value = none` models a wire asset the external
codec rejects as malformed, so that decodability is a real hypothesis. -/
structure xdr.Asset where
  value : Option StellarBase.Asset
deriving DecidableEq

/-- Modelled from the spec: `Asset::to_xdr`, the external codec's encoder;
total on validated assets and exactly inverted by `Asset::from_xdr`. -/
def Asset.to_xdr (a : Asset) : Result xdr.Asset := .ok ⟨some a⟩

/-- Modelled from the spec: `Asset::from_xdr`, the external codec's
decoder; fails only on malformed wire data and inverts `Asset::to_xdr`. -/
def Asset.from_xdr (x : xdr.Asset) : Result Asset :=
  match x.value with
  | some a => .ok a
  | none => .error .XdrAssetCodecError

/-- The wire struct `xdr::ChangeTrustOp { line, limit }`. -/
structure xdr.ChangeTrustOp where
  line : xdr.Asset
  limit : Int64
deriving DecidableEq

/-- The wire union `xdr::OperationBody`, restricted to the two variants in
the source files: `ChangeTrust(ChangeTrustOp)` and `Inflation(())`. -/
inductive xdr.OperationBody where
  | ChangeTrust (op : xdr.ChangeTrustOp)
  | Inflation
deriving DecidableEq

/-- `ChangeTrustOperation` from `src/operations/change_trust.rs`. -/
structure ChangeTrustOperation where
  source_account : Option MuxedAccount
  asset : Asset
  limit : Option Stroops
deriving DecidableEq

/-- `InflationOperation` from `src/operations/inflation.rs`. -/
structure InflationOperation where
  source_account : Option MuxedAccount
deriving DecidableEq

/-- The closed `Operation` union, restricted to the two variants in the
source files. -/
inductive Operation where
  | ChangeTrust (op : ChangeTrustOperation)
  | Inflation (op : InflationOperation)
deriving DecidableEq

/-- Models a write through `ChangeTrustOperation::limit_mut`, which
returns a public mutable reference to the limit field: the caller may
assign any value to a built operation. -/
def ChangeTrustOperation.limit_mut (op : ChangeTrustOperation)
    (l : Option Stroops) : ChangeTrustOperation :=
  { op with limit := l }

/-- Models a write through `ChangeTrustOperation::source_account_mut`. -/
def ChangeTrustOperation.source_account_mut (op : ChangeTrustOperation)
    (s : Option MuxedAccount) : ChangeTrustOperation :=
  { op with source_account := s }

/-- Models a write through `ChangeTrustOperation::asset_mut`. -/
def ChangeTrustOperation.asset_mut (op : ChangeTrustOperation)
    (a : Asset) : ChangeTrustOperation :=
  { op with asset := a }

/-- Models a write through `InflationOperation::source_account_mut`. -/
def InflationOperation.source_account_mut (op : InflationOperation)
    (s : Option MuxedAccount) : InflationOperation :=
  { op with source_account := s }

/-- `ChangeTrustOperation::to_xdr_operation_body`: encodes the asset, maps
`limit = None` to wire `0` and `Some(limit)` through `to_xdr_int64`. -/
def ChangeTrustOperation.to_xdr_operation_body (op : ChangeTrustOperation) :
    Result xdr.OperationBody :=
  match op.asset.to_xdr with
  | .error e => .error e
  | .ok line =>
    match op.limit with
    | none => .ok (.ChangeTrust ⟨line, Int64.new 0⟩)
    | some limit =>
      match limit.to_xdr_int64 with
      | .error e => .error e
      | .ok l => .ok (.ChangeTrust ⟨line, l⟩)

/-- `ChangeTrustOperation::from_xdr_operation_body`: decodes the asset and
maps the wire limit `0` to `None`, any other value `n` to
`Some(Stroops::new(n))`, without checking that the limit is positive. -/
def ChangeTrustOperation.from_xdr_operation_body
    (source_account : Option MuxedAccount) (x : xdr.ChangeTrustOp) :
    Result ChangeTrustOperation :=
  match Asset.from_xdr x.line with
  | .error e => .error e
  | .ok asset =>
    let limit := if x.limit.value = 0 then none else some (Stroops.new x.limit.value)
    .ok ⟨source_account, asset, limit⟩

/-- `InflationOperation::to_xdr_operation_body`. -/
def InflationOperation.to_xdr_operation_body (_op : InflationOperation) :
    Result xdr.OperationBody :=
  .ok .Inflation

/-- `InflationOperation::from_xdr_operation_body`. -/
def InflationOperation.from_xdr_operation_body
    (source_account : Option MuxedAccount) : Result InflationOperation :=
  .ok ⟨source_account⟩

/-- `ChangeTrustOperationBuilder`, with `Default` field values. -/
structure ChangeTrustOperationBuilder where
  source_account : Option MuxedAccount := none
  asset : Option Asset := none
  limit : Option Stroops := none
deriving DecidableEq

def ChangeTrustOperationBuilder.new : ChangeTrustOperationBuilder := {}

/-- `ChangeTrustOperationBuilder::with_source_account`, monomorphised at
`MuxedAccount` (the `Into<MuxedAccount>` conversion is the identity). -/
def ChangeTrustOperationBuilder.with_source_account
    (b : ChangeTrustOperationBuilder) (source : MuxedAccount) :
    ChangeTrustOperationBuilder :=
  { b with source_account := some source }

/-- `ChangeTrustOperationBuilder::with_asset`. -/
def ChangeTrustOperationBuilder.with_asset (b : ChangeTrustOperationBuilder)
    (asset : Asset) : ChangeTrustOperationBuilder :=
  { b with asset := some asset }

/-- The `TryInto<Stroops>` bound of `with_limit`; `none` models a failed
conversion (the builder maps it to `Error::InvalidStroopsAmount`). -/
class TryIntoStroops (A : Type) where
  try_into : A → Option Stroops

/-- `TryInto<Stroops>` for `Stroops` itself is the infallible identity. -/
instance : TryIntoStroops Stroops := ⟨fun s => some s⟩

/-- Modelled from the spec: a caller-supplied amount-like integer converts
to `Stroops` exactly when it is representable as a signed 64-bit integer;
out-of-range values fail with a conversion error. -/
instance : TryIntoStroops Int :=
  ⟨fun n => if -(2 ^ 63) ≤ n ∧ n < 2 ^ 63 then some (Stroops.new n) else none⟩

/-- `ChangeTrustOperationBuilder::with_limit`: converts the value if
present (failing with `Error::InvalidStroopsAmount` when the conversion
fails) and stores the result, overwriting any previous limit. -/
def ChangeTrustOperationBuilder.with_limit {A : Type} [TryIntoStroops A]
    (b : ChangeTrustOperationBuilder) (limit : Option A) :
    Result ChangeTrustOperationBuilder :=
  match limit with
  | none => .ok { b with limit := none }
  | some l =>
    match TryIntoStroops.try_into l with
    | some s => .ok { b with limit := some s }
    | none => .error .InvalidStroopsAmount

/-- `ChangeTrustOperationBuilder::build`: fails when the asset is missing
or a present limit is negative, otherwise yields the operation. -/
def ChangeTrustOperationBuilder.build (b : ChangeTrustOperationBuilder) :
    Result Operation :=
  match b.asset with
  | none => .error (.InvalidOperation "missing change trust asset")
  | some asset =>
    match b.limit with
    | some limit =>
      if limit.to_i64 < 0 then
        .error (.InvalidOperation "change trust limit must be positive")
      else
        .ok (.ChangeTrust { source_account := b.source_account, asset := asset, limit := b.limit })
    | none =>
      .ok (.ChangeTrust { source_account := b.source_account, asset := asset, limit := b.limit })

/-- `InflationOperationBuilder`. -/
structure InflationOperationBuilder where
  source_account : Option MuxedAccount := none
deriving DecidableEq

def InflationOperationBuilder.new : InflationOperationBuilder := {}

/-- `InflationOperationBuilder::with_source_account`, monomorphised at
`MuxedAccount`. -/
def InflationOperationBuilder.with_source_account
    (b : InflationOperationBuilder) (source : MuxedAccount) :
    InflationOperationBuilder :=
  { b with source_account := some source }

/-- `InflationOperationBuilder::build`: infallible, returns the operation
directly (its Rust return type is `Operation`, not `Result`). -/
def InflationOperationBuilder.build (b : InflationOperationBuilder) :
    Operation :=
  .Inflation ⟨b.source_account⟩

/-! ### Concrete values used by witnesses and counterexamples -/

def asset0 : Asset := ⟨0⟩

def acct1 : MuxedAccount := ⟨1⟩

def acct2 : MuxedAccount := ⟨2⟩

def builder_zero : ChangeTrustOperationBuilder := ⟨none, some asset0, some (Stroops.new 0)⟩

def op_zero : ChangeTrustOperation := ⟨none, asset0, some (Stroops.new 0)⟩

def wire_zero : xdr.ChangeTrustOp := ⟨⟨some asset0⟩, Int64.new 0⟩

def wire_neg : xdr.ChangeTrustOp := ⟨⟨some asset0⟩, Int64.new (-5)⟩

def op_five : ChangeTrustOperation := ⟨some acct1, asset0, some (Stroops.new 5)⟩

def op_nolimit : ChangeTrustOperation := ⟨none, asset0, none⟩

def builder_seven : ChangeTrustOperationBuilder := ⟨none, some asset0, some (Stroops.new 7)⟩

def op_seven : ChangeTrustOperation := ⟨none, asset0, some (Stroops.new 7)⟩

/-! ### Helper lemmas -/

/-- `with_limit` on an in-range `Stroops` value stores it. -/
lemma with_limit_stroops (b : ChangeTrustOperationBuilder) (n : Stroops) :
    b.with_limit (some n) = Result.ok { b with limit := some n } := rfl

/-- `with_limit none` clears the limit and always succeeds. -/
lemma with_limit_none_eq (b : ChangeTrustOperationBuilder) :
    b.with_limit (none : Option Stroops) = Result.ok { b with limit := none } := rfl

/-- The modelled `TryInto<Stroops>` conversion for integers, unfolded. -/
lemma try_into_int (v : Int) :
    (TryIntoStroops.try_into v : Option Stroops)
      = if -(2 ^ 63) ≤ v ∧ v < 2 ^ 63 then some (Stroops.new v) else none := rfl

/-- Everything `build` guarantees about a successfully built operation:
the fields come from the builder, the asset was present, and a present
limit was non-negative. -/
lemma build_ok_elim (b : ChangeTrustOperationBuilder) (op : ChangeTrustOperation)
    (hb : b.build = Result.ok (Operation.ChangeTrust op)) :
    b.asset = some op.asset ∧ op.source_account = b.source_account
    ∧ op.limit = b.limit ∧ ∀ l, b.limit = some l → ¬l.to_i64 < 0 := by
  obtain ⟨src, oasset, olimit⟩ := b
  cases oasset with
  | none => simp [ChangeTrustOperationBuilder.build] at hb
  | some asset =>
    cases olimit with
    | none =>
      simp [ChangeTrustOperationBuilder.build] at hb
      subst hb
      simp
    | some limit =>
      by_cases hneg : limit.to_i64 < 0
      · simp [ChangeTrustOperationBuilder.build, hneg] at hb
      · simp [ChangeTrustOperationBuilder.build, hneg] at hb
        subst hb
        simpa using hneg

/-! ### Claim theorems -/

/-- C1, counterexample to the claim as stated: the operation with
`limit = Some(Stroops(0))` is accepted by the builder (both `with_limit`
and `build` succeed on it), yet decoding its encoding yields a different
operation, because the wire limit `0` decodes to `None`. -/
theorem C1_counterexample :
    (ChangeTrustOperationBuilder.new.with_asset asset0).with_limit (some (Stroops.new 0))
        = Result.ok builder_zero
    ∧ builder_zero.build = Result.ok (Operation.ChangeTrust op_zero)
    ∧ op_zero.to_xdr_operation_body = Result.ok (xdr.OperationBody.ChangeTrust wire_zero)
    ∧ ChangeTrustOperation.from_xdr_operation_body op_zero.source_account wire_zero
        ≠ Result.ok op_zero := by
  refine ⟨rfl, rfl, rfl, ?_⟩
  decide

/-- C1, amended: for every ChangeTrust operation whose limit is not
`Some(0)`, decoding the wire form produced by encoding it yields the
operation back: `from_xdr_operation_body (op.source_account) (encode op) = op`. -/
theorem C1_round_trip (op : ChangeTrustOperation)
    (h : op.limit ≠ some (Stroops.new 0)) :
    ∃ x, op.to_xdr_operation_body = Result.ok (xdr.OperationBody.ChangeTrust x)
      ∧ ChangeTrustOperation.from_xdr_operation_body op.source_account x
          = Result.ok op := by
  obtain ⟨src, asset, limit⟩ := op
  cases limit with
  | none =>
    exact ⟨⟨⟨some asset⟩, Int64.new 0⟩, rfl, by
      simp [ChangeTrustOperation.from_xdr_operation_body, Asset.from_xdr, Int64.new]⟩
  | some l =>
    obtain ⟨v⟩ := l
    have hv : v ≠ 0 := by
      intro hv0
      exact h (by simp [hv0, Stroops.new])
    exact ⟨⟨⟨some asset⟩, Int64.new v⟩, rfl, by
      simp [ChangeTrustOperation.from_xdr_operation_body, Asset.from_xdr, Int64.new,
        Stroops.new, hv]⟩

/-- C1, witness for the amended round-trip theorem at a concrete
operation with a source-account override and `limit = Some(5)`. -/
theorem C1_round_trip_witness :
    op_five.limit ≠ some (Stroops.new 0)
    ∧ ∃ x, op_five.to_xdr_operation_body = Result.ok (xdr.OperationBody.ChangeTrust x)
        ∧ ChangeTrustOperation.from_xdr_operation_body op_five.source_account x
            = Result.ok op_five :=
  ⟨by decide, C1_round_trip op_five (by decide)⟩

/-- C2, counterexample to the claim as stated: a built operation can be
mutated through the public `limit_mut` accessor into an operation whose
limit is negative, bypassing the builder's validation. -/
theorem C2_counterexample :
    (ChangeTrustOperationBuilder.new.with_asset asset0).build
        = Result.ok (Operation.ChangeTrust op_nolimit)
    ∧ (op_nolimit.limit_mut (some (Stroops.new (-1)))).limit = some (Stroops.new (-1))
    ∧ (Stroops.new (-1)).to_i64 < 0 := by
  refine ⟨rfl, rfl, ?_⟩
  decide

/-- C2, amended: every operation produced by the ChangeTrust builder's
`build()` satisfies the builder's invariant (a present limit is ≥ 0); the
public mutable accessors (`limit_mut` etc.) can however violate it after
the fact. -/
theorem C2_build_invariant (b : ChangeTrustOperationBuilder)
    (op : ChangeTrustOperation) (l : Stroops)
    (hb : b.build = Result.ok (Operation.ChangeTrust op))
    (hl : op.limit = some l) : 0 ≤ l.to_i64 := by
  obtain ⟨-, -, hlim, hpos⟩ := build_ok_elim b op hb
  exact le_of_not_lt (hpos l (hlim ▸ hl))

/-- C2, witness for the amended invariant theorem at a concrete builder
with `limit = Some(7)`. -/
theorem C2_build_invariant_witness :
    builder_seven.build = Result.ok (Operation.ChangeTrust op_seven)
    ∧ op_seven.limit = some (Stroops.new 7)
    ∧ 0 ≤ (Stroops.new 7).to_i64 :=
  ⟨rfl, rfl, C2_build_invariant builder_seven op_seven (Stroops.new 7) rfl rfl⟩

/-- C3: an operation with `limit = None` and one with `limit = Some(0)`
both encode the wire limit field as `0`, and decoding any wire struct
whose limit field is `0` (and whose asset decodes) yields `limit = None`. -/
theorem C3_sentinel (op₁ op₂ : ChangeTrustOperation) (x : xdr.ChangeTrustOp)
    (src : Option MuxedAccount) (a : Asset)
    (h1 : op₁.limit = none) (h2 : op₂.limit = some (Stroops.new 0))
    (hx : x.limit.value = 0) (ha : Asset.from_xdr x.line = Result.ok a) :
    (∃ w, op₁.to_xdr_operation_body = Result.ok (xdr.OperationBody.ChangeTrust w)
        ∧ w.limit = Int64.new 0)
    ∧ (∃ w, op₂.to_xdr_operation_body = Result.ok (xdr.OperationBody.ChangeTrust w)
        ∧ w.limit = Int64.new 0)
    ∧ ChangeTrustOperation.from_xdr_operation_body src x
        = Result.ok ⟨src, a, none⟩ := by
  refine ⟨⟨⟨⟨some op₁.asset⟩, Int64.new 0⟩, ?_, rfl⟩,
    ⟨⟨⟨some op₂.asset⟩, Int64.new 0⟩, ?_, rfl⟩, ?_⟩
  · simp [ChangeTrustOperation.to_xdr_operation_body, Asset.to_xdr, h1]
  · simp [ChangeTrustOperation.to_xdr_operation_body, Asset.to_xdr, h2,
      Stroops.to_xdr_int64, Stroops.new, Int64.new]
  · simp [ChangeTrustOperation.from_xdr_operation_body, ha, hx]

/-- C3, witness at the concrete operations with `limit = None` and
`limit = Some(0)` and the concrete wire struct with limit field `0`. -/
theorem C3_sentinel_witness :
    op_nolimit.limit = none
    ∧ op_zero.limit = some (Stroops.new 0)
    ∧ wire_zero.limit.value = 0
    ∧ Asset.from_xdr wire_zero.line = Result.ok asset0
    ∧ ((∃ w, op_nolimit.to_xdr_operation_body
            = Result.ok (xdr.OperationBody.ChangeTrust w) ∧ w.limit = Int64.new 0)
      ∧ (∃ w, op_zero.to_xdr_operation_body
            = Result.ok (xdr.OperationBody.ChangeTrust w) ∧ w.limit = Int64.new 0)
      ∧ ChangeTrustOperation.from_xdr_operation_body none wire_zero
            = Result.ok ⟨none, asset0, none⟩) :=
  ⟨rfl, rfl, rfl, rfl,
    C3_sentinel op_nolimit op_zero wire_zero none asset0 rfl rfl rfl rfl⟩

/-- C4: on a ChangeTrust builder with the asset set, `with_limit (some n)`
followed by `build` succeeds iff `n ≥ 0`; for negative `n`, `build`
returns the validation error and produces no operation. -/
theorem C4_limit_validation (b b' : ChangeTrustOperationBuilder) (a : Asset)
    (n : Stroops) (ha : b.asset = some a)
    (hw : b.with_limit (some n) = Result.ok b') :
    ((∃ op, b'.build = Result.ok op) ↔ 0 ≤ n.to_i64)
    ∧ (n.to_i64 < 0 →
        b'.build
          = Result.error (Error.InvalidOperation "change trust limit must be positive")) := by
  rw [with_limit_stroops] at hw
  cases hw
  constructor
  · constructor
    · rintro ⟨op, hop⟩
      by_contra hneg
      rw [not_le] at hneg
      simp [ChangeTrustOperationBuilder.build, ha, hneg] at hop
    · intro hpos
      exact ⟨Operation.ChangeTrust ⟨b.source_account, a, some n⟩, by
        simp [ChangeTrustOperationBuilder.build, ha, not_lt.mpr hpos]⟩
  · intro hneg
    simp [ChangeTrustOperationBuilder.build, ha, hneg]

/-- C4, witness at a concrete builder with the asset set and a concrete
non-negative limit. -/
theorem C4_limit_validation_witness :
    (ChangeTrustOperationBuilder.new.with_asset asset0).asset = some asset0
    ∧ (ChangeTrustOperationBuilder.new.with_asset asset0).with_limit
        (some (Stroops.new 7)) = Result.ok builder_seven
    ∧ (((∃ op, builder_seven.build = Result.ok op) ↔ 0 ≤ (Stroops.new 7).to_i64)
      ∧ ((Stroops.new 7).to_i64 < 0 →
          builder_seven.build
            = Result.error (Error.InvalidOperation "change trust limit must be positive"))) :=
  ⟨rfl, rfl,
    C4_limit_validation (ChangeTrustOperationBuilder.new.with_asset asset0)
      builder_seven asset0 (Stroops.new 7) rfl rfl⟩

/-- C5: whenever the asset field is unset — as it is on the fresh builder
and stays under `with_source_account` and `with_limit` — `build` fails
with the error naming the missing asset field. -/
theorem C5_missing_asset (b b' : ChangeTrustOperationBuilder) (s : MuxedAccount)
    (l : Option Stroops) (h : b.asset = none)
    (hw : b.with_limit l = Result.ok b') :
    b.build = Result.error (Error.InvalidOperation "missing change trust asset")
    ∧ (b.with_source_account s).asset = none
    ∧ b'.asset = none
    ∧ ChangeTrustOperationBuilder.new.asset = none := by
  refine ⟨by simp [ChangeTrustOperationBuilder.build, h],
    by simp [ChangeTrustOperationBuilder.with_source_account, h], ?_, rfl⟩
  cases l with
  | none =>
    rw [with_limit_none_eq] at hw
    cases hw
    exact h
  | some v =>
    rw [with_limit_stroops] at hw
    cases hw
    exact h

/-- C5, witness at a fresh builder on which `with_source_account` and
`with_limit` were called but `with_asset` was not. -/
theorem C5_missing_asset_witness :
    (ChangeTrustOperationBuilder.new.with_source_account acct1).asset = none
    ∧ (ChangeTrustOperationBuilder.new.with_source_account acct1).with_limit
        (some (Stroops.new 7))
        = Result.ok ⟨some acct1, none, some (Stroops.new 7)⟩
    ∧ ((ChangeTrustOperationBuilder.new.with_source_account acct1).build
          = Result.error (Error.InvalidOperation "missing change trust asset")
      ∧ ((ChangeTrustOperationBuilder.new.with_source_account acct1).with_source_account
            acct2).asset = none
      ∧ (⟨some acct1, none, some (Stroops.new 7)⟩ : ChangeTrustOperationBuilder).asset = none
      ∧ ChangeTrustOperationBuilder.new.asset = none) :=
  ⟨rfl, rfl,
    C5_missing_asset (ChangeTrustOperationBuilder.new.with_source_account acct1)
      ⟨some acct1, none, some (Stroops.new 7)⟩ acct2 (some (Stroops.new 7)) rfl rfl⟩

/-- C6: the Inflation builder's `build` is infallible — its return type is
`Operation`, not `Result` — and it returns the Inflation operation
carrying the builder's source-account override, for every builder state. -/
theorem C6_inflation_build_total (b : InflationOperationBuilder) :
    b.build = Operation.Inflation ⟨b.source_account⟩ := rfl

/-- C7: `from_xdr_operation_body` does not re-validate: for every wire
struct with a decodable asset, a nonzero wire limit `n` — negative values
included — decodes to `Some(Stroops(n))`, and `0` decodes to `None`,
unconditionally. -/
theorem C7_no_revalidation (x : xdr.ChangeTrustOp) (src : Option MuxedAccount)
    (a : Asset) (ha : Asset.from_xdr x.line = Result.ok a) :
    (x.limit.value ≠ 0 →
      ChangeTrustOperation.from_xdr_operation_body src x
        = Result.ok ⟨src, a, some (Stroops.new x.limit.value)⟩)
    ∧ (x.limit.value = 0 →
      ChangeTrustOperation.from_xdr_operation_body src x = Result.ok ⟨src, a, none⟩) := by
  constructor <;> intro hx <;>
    simp [ChangeTrustOperation.from_xdr_operation_body, ha, hx]

/-- C7, witness at the concrete wire struct whose limit field is the
negative value `-5`: decode succeeds and yields `Some(Stroops(-5))`. -/
theorem C7_no_revalidation_witness :
    Asset.from_xdr wire_neg.line = Result.ok asset0
    ∧ ((wire_neg.limit.value ≠ 0 →
        ChangeTrustOperation.from_xdr_operation_body none wire_neg
          = Result.ok ⟨none, asset0, some (Stroops.new wire_neg.limit.value)⟩)
      ∧ (wire_neg.limit.value = 0 →
        ChangeTrustOperation.from_xdr_operation_body none wire_neg
          = Result.ok ⟨none, asset0, none⟩)) :=
  ⟨rfl, C7_no_revalidation wire_neg none asset0 rfl⟩

/-- C8: `with_source_account` has last-call-wins semantics on both
builders — calling it with `a₁` then `a₂` equals calling it with `a₂`
alone — and the built operation carries `Some a₂`. -/
theorem C8_last_call_wins (b : ChangeTrustOperationBuilder)
    (ib : InflationOperationBuilder) (a₁ a₂ : MuxedAccount)
    (op : ChangeTrustOperation)
    (hb : ((b.with_source_account a₁).with_source_account a₂).build
        = Result.ok (Operation.ChangeTrust op)) :
    (b.with_source_account a₁).with_source_account a₂ = b.with_source_account a₂
    ∧ (ib.with_source_account a₁).with_source_account a₂ = ib.with_source_account a₂
    ∧ ((ib.with_source_account a₁).with_source_account a₂).build
        = Operation.Inflation ⟨some a₂⟩
    ∧ op.source_account = some a₂ := by
  refine ⟨rfl, rfl, rfl, ?_⟩
  obtain ⟨-, hsrc, -, -⟩ :=
    build_ok_elim ((b.with_source_account a₁).with_source_account a₂) op hb
  exact hsrc

/-- C8, witness at concrete builders and accounts, with the ChangeTrust
builder's asset set so that `build` succeeds. -/
theorem C8_last_call_wins_witness :
    (((ChangeTrustOperationBuilder.new.with_asset asset0).with_source_account
          acct1).with_source_account acct2).build
        = Result.ok (Operation.ChangeTrust ⟨some acct2, asset0, none⟩)
    ∧ (((ChangeTrustOperationBuilder.new.with_asset asset0).with_source_account
          acct1).with_source_account acct2
        = (ChangeTrustOperationBuilder.new.with_asset asset0).with_source_account acct2
      ∧ (InflationOperationBuilder.new.with_source_account acct1).with_source_account
          acct2 = InflationOperationBuilder.new.with_source_account acct2
      ∧ ((InflationOperationBuilder.new.with_source_account acct1).with_source_account
          acct2).build = Operation.Inflation ⟨some acct2⟩
      ∧ (⟨some acct2, asset0, none⟩ : ChangeTrustOperation).source_account = some acct2) :=
  ⟨rfl,
    C8_last_call_wins (ChangeTrustOperationBuilder.new.with_asset asset0)
      InflationOperationBuilder.new acct1 acct2 ⟨some acct2, asset0, none⟩ rfl⟩

/-- C9: for every caller-supplied integer amount outside the signed
64-bit range, `with_limit (some v)` fails immediately with the typed
conversion error `Error::InvalidStroopsAmount`, so no builder — hence no
limit — is produced by the call. -/
theorem C9_conversion_error (b : ChangeTrustOperationBuilder) (v : Int)
    (h : ¬(-(2 ^ 63) ≤ v ∧ v < 2 ^ 63)) :
    b.with_limit (some v) = Result.error Error.InvalidStroopsAmount := by
  simp only [ChangeTrustOperationBuilder.with_limit, try_into_int, if_neg h]

/-- C9, witness at the out-of-range value `2^63`. -/
theorem C9_conversion_error_witness :
    ¬(-(2 ^ 63) ≤ (2 ^ 63 : Int) ∧ (2 ^ 63 : Int) < 2 ^ 63)
    ∧ ChangeTrustOperationBuilder.new.with_limit (some ((2 : Int) ^ 63))
        = Result.error Error.InvalidStroopsAmount :=
  ⟨by decide, C9_conversion_error ChangeTrustOperationBuilder.new ((2 : Int) ^ 63) (by decide)⟩

/-- C10: `with_limit none` always succeeds and clears any previously set
limit: after `with_limit (some v)` stored `v`, a subsequent
`with_limit none` yields a builder whose limit is `none`. -/
theorem C10_clear_limit (b b' : ChangeTrustOperationBuilder) (v : Stroops)
    (h : b.with_limit (some v) = Result.ok b') :
    b'.limit = some v
    ∧ b'.with_limit (none : Option Stroops) = Result.ok { b' with limit := none }
    ∧ ({ b' with limit := none } : ChangeTrustOperationBuilder).limit = none
    ∧ b.with_limit (none : Option Stroops) = Result.ok { b with limit := none } := by
  rw [with_limit_stroops] at h
  cases h
  exact ⟨rfl, with_limit_none_eq _, rfl, with_limit_none_eq _⟩

/-- C10, witness: setting `limit = Some(7)` then clearing it on a
concrete builder. -/
theorem C10_clear_limit_witness :
    (ChangeTrustOperationBuilder.new.with_asset asset0).with_limit
        (some (Stroops.new 7)) = Result.ok builder_seven
    ∧ (builder_seven.limit = some (Stroops.new 7)
      ∧ builder_seven.with_limit (none : Option Stroops)
          = Result.ok { builder_seven with limit := none }
      ∧ ({ builder_seven with limit := none } : ChangeTrustOperationBuilder).limit = none
      ∧ (ChangeTrustOperationBuilder.new.with_asset asset0).with_limit
          (none : Option Stroops)
          = Result.ok { ChangeTrustOperationBuilder.new.with_asset asset0 with limit := none }) :=
  ⟨rfl,
    C10_clear_limit (ChangeTrustOperationBuilder.new.with_asset asset0)
      builder_seven (Stroops.new 7) rfl⟩

end StellarBase
